import Mathlib

/-!
Verification of the MiDinero financial trend & prediction estimator and the
frontend authentication flow.

The estimator (`predict`, `evaluateBudgets`) lives in the backend service
`finances/services/analytics_service.py`, which is not part of the supplied
sources; it is modelled here from the specification (§4.1 of the design
document and the dashboard API documentation).  The authentication flow
(`AuthProvider` in `AuthContext.jsx`, `useAuth.handleRegister`,
`RegisterPage.handleSubmit`) is embedded directly from the supplied
JavaScript sources.

Monetary amounts and percentages are modelled as rationals (`ℚ`).
-/

namespace MiDinero

/-- Modelled from the spec: MonthlyAggregate — {month, total_income: decimal,
total_expense: decimal, transaction_count: integer}, one per (user, month),
ordered oldest first when passed to the estimator. -/
structure MonthlyAggregate where
  month : String
  total_income : ℚ
  total_expense : ℚ
  transaction_count : Nat
deriving DecidableEq, Repr

/-- Modelled from the spec: CategoryAggregate — {category_id, category_name,
total: decimal, transaction_count: integer, average: decimal}, derived per
(user, category, date-range). -/
structure CategoryAggregate where
  category_id : Nat
  category_name : String
  total : ℚ
  transaction_count : Nat
  average : ℚ
deriving DecidableEq, Repr

/-- Trend direction of monthly expenses. -/
inductive Trend where
  | increasing
  | decreasing
  | stable
deriving DecidableEq, Repr

/-- Qualitative reliability label for a prediction, driven by sample size. -/
inductive Confidence where
  | low
  | medium
  | high
deriving DecidableEq, Repr

/-- One entry of the per-category forward projection. -/
structure CategoryPrediction where
  category_id : Nat
  category_name : String
  predicted_amount : ℚ
deriving DecidableEq, Repr

/-- Modelled from the spec: Prediction — {predicted_total, category_predictions,
trend, trend_percentage, confidence}. -/
structure Prediction where
  predicted_total : ℚ
  category_predictions : List CategoryPrediction
  trend : Trend
  trend_percentage : ℚ
  confidence : Confidence
deriving DecidableEq, Repr

/-- Modelled from the spec: NoDataError, raised when the estimator receives
zero historical periods. -/
inductive NoDataError where
  | noData
deriving DecidableEq, Repr

/-- Arithmetic mean of a list of rationals (only ever applied to non-empty
lists by the estimator). -/
def mean (xs : List ℚ) : ℚ := xs.sum / (xs.length : ℚ)

/-- Modelled from the spec: trend classification — increasing if
trend_percentage > +5, decreasing if < −5, else stable. -/
def classifyTrend (tp : ℚ) : Trend :=
  if tp > 5 then .increasing
  else if tp < -5 then .decreasing
  else .stable

/-- Modelled from the spec: confidence — "high" when N ≥ 9, "medium" when
5 ≤ N < 9, "low" when N < 5, where N is the number of monthly aggregates. -/
def confidenceFor (n : Nat) : Confidence :=
  if n ≥ 9 then .high
  else if n ≥ 5 then .medium
  else .low

/-- Modelled from the spec: per-category prediction — the same average+trend
adjustment applied to the category's historical average within the window.
Categories with no history in the window produce no entry. -/
def categoryPredict (tp : ℚ) (hist : List CategoryAggregate) :
    Option CategoryPrediction :=
  match hist with
  | [] => none
  | c :: _ =>
    some { category_id := c.category_id
           category_name := c.category_name
           predicted_amount := mean (hist.map (·.total)) * (1 + tp / 100) }

/-- Modelled from the spec: trend percentage over a non-empty window
`m :: rest` — (last month's total_expense − first month's total_expense) /
first month's total_expense × 100, guarded against division by zero
(0 when the first month's total_expense is zero).  The `getD m` default is
never used: a non-empty list always has a last element. -/
def trendPct (m : MonthlyAggregate) (rest : List MonthlyAggregate) : ℚ :=
  let firstE := m.total_expense
  let lastE := ((m :: rest).getLast?.getD m).total_expense
  if firstE = 0 then 0 else (lastE - firstE) / firstE * 100

/-- Modelled from the spec: the Prediction produced for a non-empty history
`m :: rest` — predicted_total = average monthly expense × (1 +
trend_percentage / 100), per-category predictions by the same adjustment,
trend classified by the ±5 thresholds, confidence from the sample size. -/
def predictCore (m : MonthlyAggregate) (rest : List MonthlyAggregate)
    (categoryHistory : List (List CategoryAggregate)) : Prediction :=
  let tp := trendPct m rest
  { predicted_total := mean ((m :: rest).map (·.total_expense)) * (1 + tp / 100)
    category_predictions := categoryHistory.filterMap (categoryPredict tp)
    trend := classifyTrend tp
    trend_percentage := tp
    confidence := confidenceFor (m :: rest).length }

/-- Modelled from the spec: the TrendEstimator core,
`predict(history, categoryHistory) -> Prediction`; an empty history reports
NoDataError, a non-empty one produces the Prediction of `predictCore`. -/
def predict (history : List MonthlyAggregate)
    (categoryHistory : List (List CategoryAggregate)) :
    Except NoDataError Prediction :=
  match history with
  | [] => .error .noData
  | m :: rest => .ok (predictCore m rest categoryHistory)

/-- A monthly aggregate carrying only an expense total; used to state the
spec's concrete expense-history examples. -/
def monthOf (e : ℚ) : MonthlyAggregate :=
  { month := "", total_income := 0, total_expense := e, transaction_count := 0 }

/-- Per-category budget health status. -/
inductive BStatus where
  | healthy
  | warning
  | exceeded
deriving DecidableEq, Repr

/-- Severity rank of a per-category status (healthy < warning < exceeded). -/
def BStatus.rank : BStatus → Nat
  | .healthy => 0
  | .warning => 1
  | .exceeded => 2

/-- The worse of two per-category statuses. -/
def worse (a b : BStatus) : BStatus := if b.rank ≤ a.rank then a else b

/-- Worst single status among a list of per-category statuses. -/
def worstOf (l : List BStatus) : BStatus := l.foldl worse .healthy

/-- Overall budget-health status; "critical" only occurs at the overall
level, when multiple budgets are exceeded. -/
inductive OStatus where
  | healthy
  | warning
  | exceeded
  | critical
deriving DecidableEq, Repr

/-- Embedding of a per-category status into the overall status scale. -/
def BStatus.toOverall : BStatus → OStatus
  | .healthy => .healthy
  | .warning => .warning
  | .exceeded => .exceeded

/-- Modelled from the spec: one configured budget with its current-period
spend (inputs of the budget-health companion routine). -/
structure BudgetInput where
  category : String
  limit : ℚ
  spent : ℚ
deriving DecidableEq, Repr

/-- Modelled from the spec: BudgetStatus — {category, limit, spent,
remaining (may be negative), percentage, status}. -/
structure BudgetStatusRec where
  category : String
  limit : ℚ
  spent : ℚ
  remaining : ℚ
  percentage : ℚ
  status : BStatus
deriving DecidableEq, Repr

/-- Modelled from the spec: budget-utilization percentage —
spent/limit×100, treating limit = 0 as percentage = 0 (avoiding division
by zero). -/
def pctOf (limit spent : ℚ) : ℚ :=
  if limit = 0 then 0 else spent / limit * 100

/-- Modelled from the spec: per-category status from the utilization
percentage — healthy below 80%, warning from 80% to 100%, exceeded above
100%. -/
def statusOf (pct : ℚ) : BStatus :=
  if pct > 100 then .exceeded
  else if pct ≥ 80 then .warning
  else .healthy

/-- Modelled from the spec: per-category budget evaluation — the
BudgetStatus row for one configured budget. -/
def evalBudget (b : BudgetInput) : BudgetStatusRec :=
  { category := b.category
    limit := b.limit
    spent := b.spent
    remaining := b.limit - b.spent
    percentage := pctOf b.limit b.spent
    status := statusOf (pctOf b.limit b.spent) }

/-- Result of the budget-health companion routine: the per-category rows and
the overall status. -/
structure BudgetHealth where
  budgets : List BudgetStatusRec
  overall_status : OStatus
deriving DecidableEq, Repr

/-- Modelled from the spec: `evaluateBudgets` — evaluates every category
budget, and reports overall status "critical" when more than half of the
categories are "exceeded", otherwise the worst single status among the
categories. -/
def evaluateBudgets (bs : List BudgetInput) : BudgetHealth :=
  let entries := bs.map evalBudget
  let exceededCount := (entries.filter (fun e => e.status = .exceeded)).length
  { budgets := entries
    overall_status :=
      if 2 * exceededCount > entries.length then .critical
      else (worstOf (entries.map (·.status))).toOverall }

/-! ### Frontend authentication flow, embedded from the JavaScript sources -/

/-- JavaScript truthiness of `sessionStorage.getItem(k)`: the call returns
`null` when the key is absent, and both `null` and the empty string are
falsy (`!!getItem(k)` in `AuthContext.jsx`). -/
def jsTruthy : Option String → Bool
  | none => false
  | some s => !(s == "")

/-- JavaScript `a || b` on an optional string `a`: falls back to the default
when `a` is `null`/`undefined` or the empty string. -/
def jsOr (a : Option String) (b : String) : String :=
  match a with
  | none => b
  | some s => if s = "" then b else s

/-- The three `sessionStorage` keys touched by `AuthContext.jsx`: the access
token, the refresh token and the JSON-serialised user (stored user text is
kept as the raw string). -/
structure SessionStorage where
  access_token : Option String
  refresh_token : Option String
  user : Option String
deriving DecidableEq, Repr

/-- React state held by `AuthProvider`: `isAuthenticated` and the current
user (the parsed `user` object, modelled by its stored JSON text). -/
structure AuthState where
  isAuthenticated : Bool
  user : Option String
deriving DecidableEq, Repr

/-- Initial `AuthProvider` state (`AuthContext.jsx` lines 7–18):
`isAuthenticated` is `!!sessionStorage.getItem("access_token")` and `user`
is the stored user (parsed from its JSON; parsing of text produced by
`JSON.stringify` succeeds, so it is kept as is). -/
def initialAuthState (σ : SessionStorage) : AuthState :=
  { isAuthenticated := jsTruthy σ.access_token
    user := σ.user }

/-- `login(access, refresh, userData)` from `AuthContext.jsx` lines 22–33:
stores the access and refresh tokens, stores the user only when `userData`
is truthy, sets `isAuthenticated` to true and navigates to /dashboard.
Returns the updated storage, the updated state and the navigation target. -/
def login (σ : SessionStorage) (st : AuthState) (access refresh : String)
    (userData : Option String) : SessionStorage × AuthState × String :=
  let σ₁ := { σ with access_token := some access, refresh_token := some refresh }
  match userData with
  | some u =>
    ({ σ₁ with user := some u },
     { st with user := some u, isAuthenticated := true },
     "/dashboard")
  | none =>
    (σ₁, { st with isAuthenticated := true }, "/dashboard")

/-- `logout()` from `AuthContext.jsx` lines 35–42: removes the three keys,
clears the state and navigates to /login. -/
def logout (σ : SessionStorage) (st : AuthState) :
    SessionStorage × AuthState × String :=
  ({ σ with access_token := none, refresh_token := none, user := none },
   { st with isAuthenticated := false, user := none },
   "/login")

/-- `checkAuth()` from `AuthContext.jsx` lines 44–49: when no (truthy)
access token is stored, clears `isAuthenticated` and the user; otherwise
leaves the state unchanged. -/
def checkAuth (σ : SessionStorage) (st : AuthState) : AuthState :=
  if jsTruthy σ.access_token then st
  else { st with isAuthenticated := false, user := none }

/-- The `AuthProvider` invariant: `isAuthenticated` holds exactly when a
truthy access token is in session storage. -/
def AuthInv (σ : SessionStorage) (st : AuthState) : Prop :=
  st.isAuthenticated = jsTruthy σ.access_token

instance (σ : SessionStorage) (st : AuthState) : Decidable (AuthInv σ st) := by
  unfold AuthInv; infer_instance

/-! ### Registration flow (`useAuth.handleRegister`, `RegisterPage.handleSubmit`) -/

/-- The error payload the register service may attach to a failed result:
`result.errors` with its `message` and per-field `errors` map. -/
structure ServiceErrors where
  message : Option String
  errors : Option (List (String × String))
deriving DecidableEq, Repr

/-- The value resolved by `registerService`: `{success, errors?, data?}`. -/
structure ServiceResult where
  success : Bool
  errors : Option ServiceErrors
  data : Option String
deriving DecidableEq, Repr

/-- An exception thrown by the service layer (a rejected promise), carrying
the optional `detail` and per-field `errors` the handlers read off it. -/
structure JsException where
  detail : Option String
  errors : Option (List (String × String))
deriving DecidableEq, Repr

/-- Outcome of the awaited `registerService(userData)` call: the promise
either resolves with a `ServiceResult` or rejects with an exception. -/
inductive ServiceOutcome where
  | resolved (r : ServiceResult)
  | rejected (e : JsException)
deriving DecidableEq, Repr

/-- State of the `useAuth` hook: `loading`, `error`, `fieldErrors`. -/
structure UseAuthState where
  loading : Bool
  error : String
  fieldErrors : List (String × String)
deriving DecidableEq, Repr

/-- The value `handleRegister` returns to its caller. -/
structure RegResult where
  success : Bool
  data : Option String
deriving DecidableEq, Repr

/-- `useAuth.handleRegister` (hook source lines 284–305).  The whole service
call sits in a `try` whose `catch` turns any throw into `{success: false}`,
so the function itself never throws: its result is always `Except.ok`.
When `result.success` is false and `result.errors` is undefined, the access
`result.errors.message` inside the `try` throws a `TypeError` (no `.detail`,
no `.errors`), which the same `catch` turns into the fallback error message;
`setFieldErrors` is not reached on that path.  `finally` clears `loading`. -/
def handleRegister (st : UseAuthState) (outcome : ServiceOutcome) :
    Except JsException (UseAuthState × RegResult) :=
  let st₀ := { st with loading := true, error := "", fieldErrors := [] }
  match outcome with
  | .resolved r =>
    if r.success then
      .ok ({ st₀ with loading := false }, { success := true, data := r.data })
    else
      match r.errors with
      | some errs =>
        .ok ({ st₀ with
                 error := jsOr errs.message "Error de validación"
                 fieldErrors := errs.errors.getD []
                 loading := false },
             { success := false, data := none })
      | none =>
        .ok ({ st₀ with
                 error := "Error al registrar usuario"
                 loading := false },
             { success := false, data := none })
  | .rejected e =>
    .ok ({ st₀ with
             error := jsOr e.detail "Error al registrar usuario"
             loading := false },
         { success := false, data := none })

/-- The registration form fields of `RegisterPage.jsx`. -/
structure RegForm where
  firstName : String
  lastName : String
  username : String
  email : String
  password : String
  confirmPassword : String
deriving DecidableEq, Repr

/-- Observable effects of `RegisterPage.handleSubmit`: toasts and the
navigation scheduled via `setTimeout`. -/
inductive Effect where
  | toastError (msg : String)
  | toastSuccess (msg : String)
  | scheduleNavigate (path : String)
deriving DecidableEq, Repr

/-- `RegisterPage.handleSubmit` (`RegisterPage.jsx` lines 32–76): local
validation (required fields non-empty by JS truthiness, passwords equal),
then `await handleRegister(userData)`; the returned flag is never
inspected, so the success toast and the scheduled navigation to /login
follow unconditionally unless `handleRegister` itself throws, in which
case the `catch` block toasts `err.detail` and each field error message. -/
def handleSubmit (form : RegForm) (st : UseAuthState)
    (outcome : ServiceOutcome) : List Effect :=
  if form.username = "" ∨ form.email = "" ∨ form.password = "" ∨
      form.confirmPassword = "" then
    [.toastError "Por favor completa todos los campos requeridos"]
  else if form.password ≠ form.confirmPassword then
    [.toastError "Las contraseñas no coinciden"]
  else
    match handleRegister st outcome with
    | .ok _ =>
      [.toastSuccess "Registro exitoso 🎉", .scheduleNavigate "/login"]
    | .error e =>
      .toastError (jsOr e.detail "Error al registrar usuario") ::
        (e.errors.getD []).map (fun fe => .toastError fe.2)

/-! ### Theorems -/

/-- `predict` on a non-empty history returns the Prediction of
`predictCore`. -/
theorem predict_cons (m : MonthlyAggregate) (rest : List MonthlyAggregate)
    (ch : List (List CategoryAggregate)) :
    predict (m :: rest) ch = .ok (predictCore m rest ch) := rfl

/-- The trend percentage of `predictCore` is `trendPct`. -/
theorem predictCore_trend_percentage (m : MonthlyAggregate)
    (rest : List MonthlyAggregate) (ch : List (List CategoryAggregate)) :
    (predictCore m rest ch).trend_percentage = trendPct m rest := rfl

/-- The trend of `predictCore` is the classification of `trendPct`. -/
theorem predictCore_trend (m : MonthlyAggregate)
    (rest : List MonthlyAggregate) (ch : List (List CategoryAggregate)) :
    (predictCore m rest ch).trend = classifyTrend (trendPct m rest) := rfl

/-- When every month of the window has the same total_expense as the first
month, the trend percentage is zero. -/
theorem trendPct_const (m : MonthlyAggregate) (rest : List MonthlyAggregate)
    (h : ∀ x ∈ m :: rest, x.total_expense = m.total_expense) :
    trendPct m rest = 0 := by
  have hlast : (m :: rest).getLast? =
      some ((m :: rest).getLast (List.cons_ne_nil m rest)) :=
    List.getLast?_eq_getLast_of_ne_nil _
  have hmem : (m :: rest).getLast (List.cons_ne_nil m rest) ∈ m :: rest :=
    List.getLast_mem _
  have heq : ((m :: rest).getLast?.getD m).total_expense = m.total_expense := by
    rw [hlast]; exact h _ hmem
  rcases eq_or_ne m.total_expense 0 with h0 | h0 <;>
    simp [trendPct, h0, heq]

/-- C1: for every non-empty monthly history, the trend_percentage returned
by `predict` equals (last month's total_expense − first month's
total_expense) / first month's total_expense × 100; when the first month's
total_expense is zero the result is trend_percentage = 0 and trend
"stable"; and whenever all months have identical total_expense the
trend_percentage is exactly 0. -/
theorem predict_trend_percentage_spec (m : MonthlyAggregate)
    (rest : List MonthlyAggregate) (ch : List (List CategoryAggregate)) :
    predict (m :: rest) ch = .ok (predictCore m rest ch) ∧
    (m.total_expense ≠ 0 →
      (predictCore m rest ch).trend_percentage =
        (((m :: rest).getLast?.getD m).total_expense - m.total_expense) /
          m.total_expense * 100) ∧
    (m.total_expense = 0 →
      (predictCore m rest ch).trend_percentage = 0 ∧
      (predictCore m rest ch).trend = .stable) ∧
    ((∀ x ∈ m :: rest, x.total_expense = m.total_expense) →
      (predictCore m rest ch).trend_percentage = 0) := by
  refine ⟨rfl, ?_, ?_, ?_⟩
  · intro h
    simp [predictCore, trendPct, h]
  · intro h
    constructor
    · simp [predictCore, trendPct, h]
    · rw [predictCore_trend]
      norm_num [trendPct, h, classifyTrend]
  · intro h
    rw [predictCore_trend_percentage]
    exact trendPct_const m rest h

/-- Witness for C1 at concrete inputs: the constant history [2, 2] (covering
the non-zero-first-month formula and the identical-months consequence) and
the history [0] (covering the zero-first-month guard). -/
theorem predict_trend_percentage_spec_witness :
    ((monthOf 2).total_expense ≠ 0 ∧
      (predictCore (monthOf 2) [monthOf 2] []).trend_percentage =
        (((monthOf 2 :: [monthOf 2]).getLast?.getD (monthOf 2)).total_expense -
          (monthOf 2).total_expense) / (monthOf 2).total_expense * 100) ∧
    ((∀ x ∈ monthOf 2 :: [monthOf 2],
        x.total_expense = (monthOf 2).total_expense) ∧
      (predictCore (monthOf 2) [monthOf 2] []).trend_percentage = 0) ∧
    ((monthOf 0).total_expense = 0 ∧
      (predictCore (monthOf 0) [] []).trend_percentage = 0 ∧
      (predictCore (monthOf 0) [] []).trend = .stable) :=
  ⟨⟨by norm_num [monthOf],
    (predict_trend_percentage_spec (monthOf 2) [monthOf 2] []).2.1
      (by norm_num [monthOf])⟩,
   ⟨by simp [monthOf],
    (predict_trend_percentage_spec (monthOf 2) [monthOf 2] []).2.2.2
      (by simp [monthOf])⟩,
   ⟨by norm_num [monthOf],
    (predict_trend_percentage_spec (monthOf 0) [] []).2.2.1
      (by norm_num [monthOf])⟩⟩

/-- C2: the trend is classified "increasing" exactly when trend_percentage
is above +5, "decreasing" exactly when below −5 and "stable" otherwise; on
the expense history [1000, 1100, 1210] the trend percentage is 21 with
trend "increasing", and on [1000, 950, 900] it is −10 with trend
"decreasing". -/
theorem predict_trend_classification (m : MonthlyAggregate)
    (rest : List MonthlyAggregate) (ch : List (List CategoryAggregate)) :
    ((predictCore m rest ch).trend = .increasing ↔
      (predictCore m rest ch).trend_percentage > 5) ∧
    ((predictCore m rest ch).trend = .decreasing ↔
      (predictCore m rest ch).trend_percentage < -5) ∧
    ((predictCore m rest ch).trend = .stable ↔
      ¬ (predictCore m rest ch).trend_percentage > 5 ∧
      ¬ (predictCore m rest ch).trend_percentage < -5) ∧
    (predict (monthOf 1000 :: [monthOf 1100, monthOf 1210]) [] =
      .ok (predictCore (monthOf 1000) [monthOf 1100, monthOf 1210] []) ∧
      (predictCore (monthOf 1000) [monthOf 1100, monthOf 1210] []).trend_percentage = 21 ∧
      (predictCore (monthOf 1000) [monthOf 1100, monthOf 1210] []).trend = .increasing) ∧
    (predict (monthOf 1000 :: [monthOf 950, monthOf 900]) [] =
      .ok (predictCore (monthOf 1000) [monthOf 950, monthOf 900] []) ∧
      (predictCore (monthOf 1000) [monthOf 950, monthOf 900] []).trend_percentage = -10 ∧
      (predictCore (monthOf 1000) [monthOf 950, monthOf 900] []).trend = .decreasing) := by
  rw [predictCore_trend, predictCore_trend_percentage]
  refine ⟨?_, ?_, ?_, ⟨rfl, ?_, ?_⟩, ⟨rfl, ?_, ?_⟩⟩
  · unfold classifyTrend; split_ifs with h1 h2 <;> simp_all
  · unfold classifyTrend; split_ifs with h1 h2 <;> simp_all; linarith
  · unfold classifyTrend; split_ifs with h1 h2 <;> simp_all
  · norm_num [predictCore, trendPct, monthOf]
  · norm_num [predictCore, trendPct, monthOf, classifyTrend]
  · norm_num [predictCore, trendPct, monthOf]
  · norm_num [predictCore, trendPct, monthOf, classifyTrend]

/-- C3: `predict` reports NoDataError exactly on the empty input sequence,
and produces a Prediction (no error) on every history with at least one
period. -/
theorem predict_nodata_iff_empty (history : List MonthlyAggregate)
    (ch : List (List CategoryAggregate)) :
    (predict history ch = .error .noData ↔ history = []) ∧
    (history ≠ [] → ∃ p, predict history ch = .ok p) := by
  cases history with
  | nil => exact ⟨by simp [predict], fun h => absurd rfl h⟩
  | cons m rest =>
    refine ⟨?_, fun _ => ⟨predictCore m rest ch, rfl⟩⟩
    simp [predict]

/-- Witness for C3: the singleton history [1000] is non-empty and yields a
Prediction. -/
theorem predict_nodata_iff_empty_witness :
    ((monthOf 1000 :: []) ≠ ([] : List MonthlyAggregate)) ∧
    ∃ p, predict [monthOf 1000] [] = .ok p :=
  ⟨by simp, (predict_nodata_iff_empty [monthOf 1000] []).2 (by simp)⟩

/-- The status thresholds: healthy exactly below 80%. -/
theorem statusOf_healthy_iff (p : ℚ) : statusOf p = .healthy ↔ p < 80 := by
  unfold statusOf
  split_ifs with h1 h2
  · constructor
    · intro h; simp at h
    · intro h; linarith
  · constructor
    · intro h; simp at h
    · intro h; linarith
  · simp only [true_iff]
    push_neg at h2
    linarith

/-- The status thresholds: warning exactly from 80% to 100%. -/
theorem statusOf_warning_iff (p : ℚ) : statusOf p = .warning ↔ 80 ≤ p ∧ p ≤ 100 := by
  unfold statusOf
  split_ifs with h1 h2
  · constructor
    · intro h; simp at h
    · rintro ⟨_, h100⟩; linarith
  · exact ⟨fun _ => ⟨h2, by linarith⟩, fun _ => rfl⟩
  · constructor
    · intro h; simp at h
    · rintro ⟨h80, _⟩; exact absurd h80 h2

/-- The status thresholds: exceeded exactly above 100%. -/
theorem statusOf_exceeded_iff (p : ℚ) : statusOf p = .exceeded ↔ p > 100 := by
  unfold statusOf
  split_ifs with h1 h2
  · simp [h1]
  · constructor
    · intro h; simp at h
    · intro h; linarith
  · constructor
    · intro h; simp at h
    · intro h; linarith

/-- C4: `evaluateBudgets` evaluates every category budget via `evalBudget`,
which computes percentage = spent/limit×100 (percentage 0 when limit = 0)
and assigns healthy below 80%, warning from 80% to 100% and exceeded above
100%; limit 500 with spent 600 yields percentage 120 and status exceeded,
and limit 0 with spent 0 yields percentage 0 and status healthy. -/
theorem evaluateBudgets_per_category_spec (b : BudgetInput) :
    (∀ bs : List BudgetInput, (evaluateBudgets bs).budgets = bs.map evalBudget) ∧
    (evalBudget b).percentage =
      (if b.limit = 0 then 0 else b.spent / b.limit * 100) ∧
    ((evalBudget b).status = .healthy ↔ (evalBudget b).percentage < 80) ∧
    ((evalBudget b).status = .warning ↔
      80 ≤ (evalBudget b).percentage ∧ (evalBudget b).percentage ≤ 100) ∧
    ((evalBudget b).status = .exceeded ↔ (evalBudget b).percentage > 100) ∧
    ((evalBudget ⟨"", 500, 600⟩).percentage = 120 ∧
      (evalBudget ⟨"", 500, 600⟩).status = .exceeded) ∧
    ((evalBudget ⟨"", 0, 0⟩).percentage = 0 ∧
      (evalBudget ⟨"", 0, 0⟩).status = .healthy) :=
  ⟨fun _ => rfl,
   rfl,
   statusOf_healthy_iff (pctOf b.limit b.spent),
   statusOf_warning_iff (pctOf b.limit b.spent),
   statusOf_exceeded_iff (pctOf b.limit b.spent),
   ⟨by norm_num [evalBudget, pctOf], by norm_num [evalBudget, pctOf, statusOf]⟩,
   ⟨by norm_num [evalBudget, pctOf], by norm_num [evalBudget, pctOf, statusOf]⟩⟩

/-- A per-category status never embeds to the overall "critical". -/
theorem toOverall_ne_critical (s : BStatus) : s.toOverall ≠ .critical := by
  cases s <;> simp [BStatus.toOverall]

/-- C5: for every non-empty budget list, the overall status is "critical"
exactly when more than half of the per-category statuses are "exceeded",
and otherwise it is the worst single status among the categories; with 2 of
3 categories exceeded the overall status is "critical". -/
theorem evaluateBudgets_overall_spec (bs : List BudgetInput) (hne : bs ≠ []) :
    ((evaluateBudgets bs).overall_status = .critical ↔
      2 * ((evaluateBudgets bs).budgets.filter
        (fun e => e.status = .exceeded)).length > bs.length) ∧
    (¬ 2 * ((evaluateBudgets bs).budgets.filter
        (fun e => e.status = .exceeded)).length > bs.length →
      (evaluateBudgets bs).overall_status =
        (worstOf ((evaluateBudgets bs).budgets.map (·.status))).toOverall) ∧
    (evaluateBudgets
      [⟨"a", 100, 150⟩, ⟨"b", 100, 150⟩, ⟨"c", 100, 10⟩]).overall_status =
      .critical := by
  refine ⟨?_, ?_, ?_⟩
  · simp only [evaluateBudgets, List.length_map]
    split_ifs with h
    · simp [h]
    · simp [h, toOverall_ne_critical]
  · intro h
    simp only [evaluateBudgets, List.length_map] at h ⊢
    rw [if_neg h]
  · norm_num [evaluateBudgets, evalBudget, pctOf, statusOf, List.filter]
    decide

/-- Witness for C5: the singleton budget list [limit 0, spent 0] is
non-empty, has no exceeded category, and its overall status is the worst
single per-category status. -/
theorem evaluateBudgets_overall_spec_witness :
    ([(⟨"a", 0, 0⟩ : BudgetInput)] ≠ []) ∧
    ¬ 2 * ((evaluateBudgets [(⟨"a", 0, 0⟩ : BudgetInput)]).budgets.filter
        (fun e => e.status = .exceeded)).length >
      [(⟨"a", 0, 0⟩ : BudgetInput)].length ∧
    (evaluateBudgets [(⟨"a", 0, 0⟩ : BudgetInput)]).overall_status =
      (worstOf ((evaluateBudgets [(⟨"a", 0, 0⟩ : BudgetInput)]).budgets.map
        (·.status))).toOverall :=
  ⟨by simp, by decide,
   (evaluateBudgets_overall_spec [⟨"a", 0, 0⟩] (by simp)).2.1 (by decide)⟩

/-- The predicted total of `predictCore` is the window average adjusted by
the trend percentage. -/
theorem predictCore_predicted_total (m : MonthlyAggregate)
    (rest : List MonthlyAggregate) (ch : List (List CategoryAggregate)) :
    (predictCore m rest ch).predicted_total =
      mean ((m :: rest).map (·.total_expense)) *
        (1 + (predictCore m rest ch).trend_percentage / 100) := rfl

/-- C6: the predicted total equals the mean of total_expense over the
window multiplied by (1 + trend_percentage/100); for a single-element
history the confidence is "low" and the predicted total is that element's
total_expense. -/
theorem predict_predicted_total_spec (m : MonthlyAggregate)
    (rest : List MonthlyAggregate) (ch : List (List CategoryAggregate)) :
    (predictCore m rest ch).predicted_total =
      mean ((m :: rest).map (·.total_expense)) *
        (1 + (predictCore m rest ch).trend_percentage / 100) ∧
    predict [m] ch = .ok (predictCore m [] ch) ∧
    (predictCore m [] ch).confidence = .low ∧
    (predictCore m [] ch).predicted_total = m.total_expense := by
  refine ⟨rfl, rfl, rfl, ?_⟩
  rcases eq_or_ne m.total_expense 0 with h | h <;>
    simp [predictCore, trendPct, mean, h]

/-- The confidence of `predictCore` is determined by the window length. -/
theorem predictCore_confidence (m : MonthlyAggregate)
    (rest : List MonthlyAggregate) (ch : List (List CategoryAggregate)) :
    (predictCore m rest ch).confidence = confidenceFor (m :: rest).length := rfl

/-- C7: the confidence depends only on the number N of months in the
history: "high" when N ≥ 9, "medium" when 5 ≤ N < 9 and "low" when
N < 5. -/
theorem predict_confidence_spec (m : MonthlyAggregate)
    (rest : List MonthlyAggregate) (ch : List (List CategoryAggregate)) :
    (predictCore m rest ch).confidence = confidenceFor (m :: rest).length ∧
    ((m :: rest).length ≥ 9 → (predictCore m rest ch).confidence = .high) ∧
    (5 ≤ (m :: rest).length ∧ (m :: rest).length < 9 →
      (predictCore m rest ch).confidence = .medium) ∧
    ((m :: rest).length < 5 → (predictCore m rest ch).confidence = .low) := by
  refine ⟨rfl, ?_, ?_, ?_⟩
  · intro h
    rw [predictCore_confidence]; unfold confidenceFor
    rw [if_pos h]
  · rintro ⟨h5, h9⟩
    rw [predictCore_confidence]; unfold confidenceFor
    rw [if_neg (by omega), if_pos (by omega)]
  · intro h
    rw [predictCore_confidence]; unfold confidenceFor
    rw [if_neg (by omega), if_neg (by omega)]

/-- Witness for C7 at windows of lengths 9, 5 and 1. -/
theorem predict_confidence_spec_witness :
    ((monthOf 1 :: List.replicate 8 (monthOf 1)).length ≥ 9 ∧
      (predictCore (monthOf 1) (List.replicate 8 (monthOf 1)) []).confidence = .high) ∧
    ((5 ≤ (monthOf 1 :: List.replicate 4 (monthOf 1)).length ∧
        (monthOf 1 :: List.replicate 4 (monthOf 1)).length < 9) ∧
      (predictCore (monthOf 1) (List.replicate 4 (monthOf 1)) []).confidence = .medium) ∧
    ((monthOf 1 :: ([] : List MonthlyAggregate)).length < 5 ∧
      (predictCore (monthOf 1) [] []).confidence = .low) :=
  ⟨⟨by decide,
    (predict_confidence_spec (monthOf 1) (List.replicate 8 (monthOf 1)) []).2.1
      (by decide)⟩,
   ⟨by decide,
    (predict_confidence_spec (monthOf 1) (List.replicate 4 (monthOf 1)) []).2.2.1
      (by decide)⟩,
   ⟨by decide,
    (predict_confidence_spec (monthOf 1) [] []).2.2.2 (by decide)⟩⟩

/-- C8: `predict` is a pure function of its input sequence — two calls on
equal inputs yield identical Prediction outputs. -/
theorem predict_deterministic (h₁ h₂ : List MonthlyAggregate)
    (ch₁ ch₂ : List (List CategoryAggregate)) (hh : h₁ = h₂)
    (hc : ch₁ = ch₂) : predict h₁ ch₁ = predict h₂ ch₂ := by
  rw [hh, hc]

/-- Witness for C8 at a concrete input. -/
theorem predict_deterministic_witness :
    [monthOf 1] = [monthOf 1] ∧
    ([] : List (List CategoryAggregate)) = [] ∧
    predict [monthOf 1] [] = predict [monthOf 1] [] :=
  ⟨rfl, rfl, predict_deterministic [monthOf 1] [monthOf 1] [] [] rfl rfl⟩

/-- C9: every registration attempt that passes RegisterPage's local
validation (required fields non-empty, password equal to confirmPassword)
shows the success toast and schedules navigation to /login regardless of
the service outcome: `handleRegister` catches every service error and
returns {success: false} instead of throwing, and `handleSubmit` never
inspects the returned flag. -/
theorem register_submit_always_success (form : RegForm) (st : UseAuthState)
    (outcome : ServiceOutcome) (hu : form.username ≠ "")
    (he : form.email ≠ "") (hp : form.password ≠ "")
    (hc : form.confirmPassword ≠ "")
    (hm : form.password = form.confirmPassword) :
    (∃ v, handleRegister st outcome = .ok v) ∧
    handleSubmit form st outcome =
      [.toastSuccess "Registro exitoso 🎉", .scheduleNavigate "/login"] := by
  have hok : ∃ v, handleRegister st outcome = .ok v := by
    unfold handleRegister
    rcases outcome with r | e
    · by_cases hs : r.success
      · simp [hs]
      · rcases herr : r.errors with _ | errs <;> simp [hs, herr]
    · simp
  refine ⟨hok, ?_⟩
  obtain ⟨v, hv⟩ := hok
  unfold handleSubmit
  rw [if_neg (by simp [hu, he, hp, hc]), if_neg (by simp [hm]), hv]

/-- Witness for C9: a fully filled form whose service call rejects with a
network error still produces the success toast and the scheduled
navigation to /login. -/
theorem register_submit_always_success_witness :
    (("camilo123" : String) ≠ "" ∧ ("u@ejemplo.com" : String) ≠ "" ∧
      ("secreta" : String) ≠ "" ∧ ("secreta" : String) = "secreta") ∧
    handleSubmit ⟨"Juan", "Pérez", "camilo123", "u@ejemplo.com", "secreta", "secreta"⟩
        ⟨false, "", []⟩ (.rejected ⟨some "Network Error", none⟩) =
      [.toastSuccess "Registro exitoso 🎉", .scheduleNavigate "/login"] :=
  ⟨⟨by decide, by decide, by decide, rfl⟩,
   (register_submit_always_success
      ⟨"Juan", "Pérez", "camilo123", "u@ejemplo.com", "secreta", "secreta"⟩
      ⟨false, "", []⟩ (.rejected ⟨some "Network Error", none⟩)
      (by decide) (by decide) (by decide) (by decide) rfl).2⟩

/-- C10 counterexample: calling `login` without user data leaves the
sessionStorage `user` key absent while still setting `isAuthenticated` to
true — `login` does not store all three keys before setting
`isAuthenticated`, as the claim asserts. -/
theorem auth_login_without_user_cex :
    (login ⟨none, none, none⟩ ⟨false, none⟩ "tok" "ref" none).1.user = none ∧
    (login ⟨none, none, none⟩ ⟨false, none⟩ "tok" "ref" none).2.1.isAuthenticated
      = true :=
  ⟨rfl, rfl⟩

/-- C10 (amended): `AuthProvider` preserves the invariant that
`isAuthenticated` is true exactly when sessionStorage holds a truthy
(non-empty) access_token: the initial state derives `isAuthenticated` from
the stored token; `login` stores access_token and refresh_token, stores
user only when user data is provided, and sets `isAuthenticated` true
(establishing the invariant for any non-empty access token); `logout`
removes all three keys before setting `isAuthenticated` false and user
null; `checkAuth` sets `isAuthenticated` false and user null whenever no
truthy access_token is stored, and preserves the invariant. -/
theorem auth_provider_invariant_amended :
    (∀ σ : SessionStorage, AuthInv σ (initialAuthState σ)) ∧
    (∀ (σ : SessionStorage) (st : AuthState) (a r : String)
        (d : Option String), a ≠ "" →
      (login σ st a r d).1.access_token = some a ∧
      (login σ st a r d).1.refresh_token = some r ∧
      (∀ u, d = some u → (login σ st a r d).1.user = some u) ∧
      (login σ st a r d).2.1.isAuthenticated = true ∧
      AuthInv (login σ st a r d).1 (login σ st a r d).2.1) ∧
    (∀ (σ : SessionStorage) (st : AuthState),
      (logout σ st).1.access_token = none ∧
      (logout σ st).1.refresh_token = none ∧
      (logout σ st).1.user = none ∧
      (logout σ st).2.1.isAuthenticated = false ∧
      (logout σ st).2.1.user = none ∧
      AuthInv (logout σ st).1 (logout σ st).2.1) ∧
    (∀ (σ : SessionStorage) (st : AuthState),
      jsTruthy σ.access_token = false →
      (checkAuth σ st).isAuthenticated = false ∧
      (checkAuth σ st).user = none) ∧
    (∀ (σ : SessionStorage) (st : AuthState), AuthInv σ st →
      AuthInv σ (checkAuth σ st)) := by
  refine ⟨fun σ => rfl, ?_, fun σ st => ⟨rfl, rfl, rfl, rfl, rfl, rfl⟩, ?_, ?_⟩
  · intro σ st a r d ha
    have htr : jsTruthy (some a) = true := by simp [jsTruthy, ha]
    cases d <;> simp [login, AuthInv, htr]
  · intro σ st h
    unfold checkAuth
    rw [h]
    exact ⟨rfl, rfl⟩
  · intro σ st hInv
    unfold AuthInv checkAuth at *
    by_cases h : jsTruthy σ.access_token <;> simp [h, hInv]

/-- Witness for C10 (amended): a concrete login with user data satisfies
the invariant; with nothing stored, `checkAuth` clears the state; and
`checkAuth` preserves the invariant on a concrete authenticated state. -/
theorem auth_provider_invariant_amended_witness :
    (("tok" : String) ≠ "" ∧
      AuthInv (login ⟨none, none, none⟩ ⟨false, none⟩ "tok" "ref" (some "u")).1
        (login ⟨none, none, none⟩ ⟨false, none⟩ "tok" "ref" (some "u")).2.1) ∧
    (jsTruthy (⟨none, none, none⟩ : SessionStorage).access_token = false ∧
      (checkAuth ⟨none, none, none⟩ ⟨true, some "u"⟩).isAuthenticated = false) ∧
    (AuthInv ⟨some "tok", none, none⟩ ⟨true, none⟩ ∧
      AuthInv ⟨some "tok", none, none⟩
        (checkAuth ⟨some "tok", none, none⟩ ⟨true, none⟩)) :=
  ⟨⟨by decide,
    (auth_provider_invariant_amended.2.1 ⟨none, none, none⟩ ⟨false, none⟩
      "tok" "ref" (some "u") (by decide)).2.2.2.2⟩,
   ⟨rfl,
    (auth_provider_invariant_amended.2.2.2.1 ⟨none, none, none⟩
      ⟨true, some "u"⟩ rfl).1⟩,
   ⟨by decide,
    auth_provider_invariant_amended.2.2.2.2 ⟨some "tok", none, none⟩
      ⟨true, none⟩ (by decide)⟩⟩

end MiDinero
